import Mathlib

/-!
Verification of the ecotrack Telegram lifecycle bot
(src/telegram-bot/main.py) against its natural-language specification.

The Python module is shallowly embedded below.  Network and transport
effects (the Telegram API, the HTTP submission call, the two clocks) are
passed in explicitly through an `Env` record, so every handler becomes a
pure function from its scratch state and environment to the next dialog
state, the next scratch state, and a log of observable effects (messages
sent or edited, API submissions made).
-/

/-- Dialog states of the ConversationHandler in `setup_handlers`.
`idle` stands for "no active conversation" as well as
`ConversationHandler.END`; the other three are the integer constants
WAITING_FOR_EVENT = 1, WAITING_FOR_IMAGE = 2, WAITING_FOR_DESCRIPTION = 3. -/
inductive ConvState
  | idle
  | waiting_for_event
  | waiting_for_image
  | waiting_for_description
deriving DecidableEq

/-- The per-conversation scratch state `context.user_data`: the keys
written by the handlers are "photo_file_id", "photo_size" and
"text_description"; an absent key is `none`. -/
structure UserData where
  photo_file_id : Option String
  photo_size : Option Nat
  text_description : Option String
deriving DecidableEq

/-- The cleared `user_data` dict (after `context.user_data.clear()`). -/
def UserData.empty : UserData :=
  { photo_file_id := none, photo_size := none, text_description := none }

/-- A transport-level fault of the HTTP layer (timeout, connection
refused, non-JSON body), carried as the message of the raised exception. -/
structure TransportFault where
  msg : String
deriving DecidableEq

/-- The decoded JSON body of the submission response, with the fields
`process_lifecycle_event` reads.  An absent key is `none`; `success`
models `result.get("success", False)` (absent means `false`). -/
structure MatchedProduct where
  name : String
deriving DecidableEq

structure LifecycleStep where
  title : String
  description : String
deriving DecidableEq

structure MatchInfo where
  confidence : Nat
  message : String
deriving DecidableEq

structure ApiResponse where
  success : Bool
  matchedProduct : Option MatchedProduct
  lifecycleStep : Option LifecycleStep
  matchInfo : Option MatchInfo
  message : Option String
  error : Option String
deriving DecidableEq

/-- The JSON body `send_to_api` posts to API_BASE/lifecycle/telegram-event. -/
structure Payload where
  telegramId : String
  text : String
  botToken : String
  timestamp : Int
  imageBase64 : Option String
deriving DecidableEq

/-- Observable effects of one turn: a fresh outbound message
(`reply_text`), an edit of the processing placeholder (`edit_text`), or
the single HTTP submission (the POST made by `send_to_api`). -/
inductive Effect
  | sendMsg (content : String)
  | editMsg (content : String)
  | apiCall (p : Payload)
deriving DecidableEq

/-- One inbound Telegram update relevant to the conversation handler:
a photo attachment (highest-resolution file id and size) or a text
message. -/
inductive ChatInput
  | photo (fileId : String) (fileSize : Nat)
  | text (s : String)
deriving DecidableEq

/-- The external world for one turn: the outcome the Telegram file
download would produce, the outcome the HTTP submission exchange would
produce (a raised fault or a decoded JSON body), whether editing the
processing placeholder succeeds, the event-loop monotonic clock reading
sampled by `asyncio.get_event_loop().time()`, the real wall clock
(seconds since the Unix epoch, for comparison only: the source never
reads it), and the configured BOT_SECRET. -/
structure Env where
  fetchResult : Except String (List Nat)
  netResult : Except TransportFault ApiResponse
  editOk : Bool
  monotonicNow : Int
  wallClockNow : Int
  botSecret : String

/-- Count of submission calls in an effect log. -/
def countApiCalls : List Effect → Nat
  | [] => 0
  | Effect.apiCall _ :: rest => countApiCalls rest + 1
  | _ :: rest => countApiCalls rest

/-- The submission payloads in an effect log, in order. -/
def apiPayloads : List Effect → List Payload
  | [] => []
  | Effect.apiCall p :: rest => p :: apiPayloads rest
  | _ :: rest => apiPayloads rest

/-- The user-visible texts delivered by an effect log (sent or edited),
in order. -/
def msgTexts : List Effect → List String
  | [] => []
  | Effect.sendMsg c :: rest => c :: msgTexts rest
  | Effect.editMsg c :: rest => c :: msgTexts rest
  | Effect.apiCall _ :: rest => msgTexts rest

/-- The base64 alphabet, for `base64.b64encode`. -/
def base64Alphabet : List Char :=
  ("ABCDEFGHIJKLMNOPQRSTUVWXYZabcdefghijklmnopqrstuvwxyz0123456789+/").data

def b64Char (n : Nat) : Char := base64Alphabet.getD n 'A'

/-- Standard base64 encoding of a byte sequence (`base64.b64encode`). -/
def base64Encode : List Nat → String
  | [] => ""
  | [a] =>
      String.mk [b64Char (a / 4), b64Char (a % 4 * 16)] ++ "=="
  | [a, b] =>
      String.mk [b64Char (a / 4), b64Char (a % 4 * 16 + b / 16),
                 b64Char (b % 16 * 4)] ++ "="
  | a :: b :: c :: rest =>
      String.mk [b64Char (a / 4), b64Char (a % 4 * 16 + b / 16),
                 b64Char (b % 16 * 4 + c / 64), b64Char (c % 64)]
        ++ base64Encode rest

/-- Model of `get_photo_data` (main.py lines 453-465): download the photo bytes
and return them as a data URL; every exception is caught and turned into
`None`.  The download outcome is the `fetch` argument. -/
def get_photo_data (fetch : Except String (List Nat)) : Option String :=
  match fetch with
  | Except.ok bytes => some ("data:image/jpeg;base64," ++ base64Encode bytes)
  | Except.error _ => none

/-- Model of `send_to_api` (main.py lines 467-486): build the payload — note that
`timestamp` is `int(asyncio.get_event_loop().time())`, the monotonic
clock reading of the event loop, carried here as `env.monotonicNow` — and
perform the single POST.  The function body has no try/except, so a
transport fault propagates to the caller unchanged: we return the
`Except` of the exchange as is, next to the payload that was posted. -/
def send_to_api (telegram_id : String) (text : String)
    (image_data : Option String) (env : Env) :
    Payload × Except TransportFault ApiResponse :=
  ({ telegramId := telegram_id
   , text := text
   , botToken := env.botSecret
   , timestamp := env.monotonicNow
   , imageBase64 := image_data }, env.netResult)

/-- The eight quick-reply labels checked by the `in` test at
main.py lines 336-338 (emoji-prefixed, exactly as the keyboard sends
them). -/
def quickReplyLabels : List String :=
  [ "🔴 Broken/Not Working", "🔧 Fixed/Repaired", "🛒 Just Bought"
  , "♻️ Recycled/Disposed", "🎁 Sold/Gifted", "⬆️ Upgraded/Modified"
  , "🧽 Cleaned/Maintained", "✅ Working Great" ]

/-- The `description_mapping` dict at main.py lines 340-349. -/
def description_mapping : List (String × String) :=
  [ ("🔴 Broken/Not Working", "This product is broken and not working properly")
  , ("🔧 Fixed/Repaired", "I fixed and repaired this product, it\x27s working now")
  , ("🛒 Just Bought", "I just purchased this product")
  , ("♻️ Recycled/Disposed", "I recycled or disposed of this product")
  , ("🎁 Sold/Gifted", "I sold or gave away this product")
  , ("⬆️ Upgraded/Modified", "I upgraded or modified this product")
  , ("🧽 Cleaned/Maintained", "I cleaned and maintained this product")
  , ("✅ Working Great", "This product is working great with no issues") ]

/-- Model of `description_mapping.get(description, description)` (main.py line 350). -/
def mapDescription (s : String) : String :=
  (description_mapping.lookup s).getD s

/-- Prompt sent by `handle_photo` (main.py line 297). -/
def photoReceivedPrompt : String :=
  "📸 Great! I see you\x27ve sent a photo. Now tell me what happened with this product:"

/-- Prompt sent by `handle_text_only` (main.py lines 317-318). -/
def textOnlyPrompt : String :=
  "📝 I see you\x27ve described something. For better product identification, could you also send a photo?\n\nOr if you want to proceed with text only, I\x27ll try to match based on your description:"

/-- Prompt of the "📝 Custom Description" branch (main.py line 353). -/
def customDescPrompt : String :=
  "Please describe what happened with your product:"

/-- Prompt of the send-a-photo branch (main.py line 359). -/
def sendPhotoPrompt : String :=
  "Perfect! Please send a photo of your product:"

/-- The processing placeholder text (main.py lines 369-372). -/
def processingText : String :=
  "🔄 Processing your lifecycle event...\n• Analyzing content\n• Matching products\n• Creating lifecycle step"

/-- The generic apology rendered by the outer except handler
(main.py lines 431, 437). -/
def apologyText : String :=
  "❌ Sorry, something went wrong processing your event. Please try again later."

/-- The cancellation acknowledgment (main.py line 448). -/
def cancelText : String :=
  "❌ Operation cancelled. Send me a photo anytime to track a lifecycle event!"

/-- The success message built at main.py lines 392-404 from the decoded
response fields, reproduced with the literal text of the f-string. -/
def renderSuccess (mp : MatchedProduct) (ls : LifecycleStep) (mi : MatchInfo) : String :=
  "\n✅ *Lifecycle Event Recorded!*\n\n*Product:* " ++ mp.name
    ++ "\n*Event:* " ++ ls.title
    ++ "\n*Match Confidence:* " ++ Nat.repr mi.confidence
    ++ "%\n\n" ++ mi.message
    ++ "\n\n*Description:* " ++ ls.description
    ++ "\n\n🌱 Check your Life app dashboard to see the full timeline!\n                "

/-- The failure message built at main.py line 419:
`"❌ " + result.get("message", result.get("error", "Failed to process event"))`. -/
def renderFailure (r : ApiResponse) : String :=
  "❌ " ++ (r.message.getD (r.error.getD "Failed to process event"))

/-- What the three render sites of `process_lifecycle_event` display,
as a function of the outcome of the submission exchange: a raised transport
fault reaches the outer except handler (generic apology); a decoded body
with `success` truthy and all three sub-objects present renders the
success message; `success` truthy with a missing sub-object raises a
KeyError that also reaches the outer except handler; anything else
renders the failure line. -/
def outcomeContent (res : Except TransportFault ApiResponse) : String :=
  match res with
  | Except.error _ => apologyText
  | Except.ok result =>
      if result.success then
        match result.matchedProduct, result.lifecycleStep, result.matchInfo with
        | some mp, some ls, some mi => renderSuccess mp ls mi
        | _, _, _ => apologyText
      else
        renderFailure result

/-- The try-edit / except-send-new-message pattern repeated at
main.py lines 406-417, 420-425 and 429-438: if editing the processing
placeholder succeeds the content is delivered as an edit, otherwise the
same content is delivered as a fresh message. -/
def renderWith (editOk : Bool) (content : String) : List Effect :=
  if editOk then [Effect.editMsg content] else [Effect.sendMsg content]

/-- The image-fetch step of the submission path (main.py lines 378-383):
`get_photo_data` is called iff a photo_file_id is stored. -/
def imageFor (ud : UserData) (env : Env) : Option String :=
  match ud.photo_file_id with
  | some _ => get_photo_data env.fetchResult
  | none => none

/-- The submission path of `process_lifecycle_event`
(main.py lines 367-442): send the processing placeholder, fetch the
image iff a photo_file_id is stored (`get_photo_data` never raises),
post to the API, render the outcome (with edit fallback), and
unconditionally clear `user_data` and end the conversation — the
`context.user_data.clear()` / `return ConversationHandler.END` at lines
440-442 sit outside the try, so they run on every path, including the
one where the exchange raised. -/
def submitFlow (telegram_id : String) (ud : UserData) (description : String)
    (env : Env) : ConvState × UserData × List Effect :=
  let pr := send_to_api telegram_id description (imageFor ud env) env
  (ConvState.idle, UserData.empty,
    Effect.sendMsg processingText :: Effect.apiCall pr.1
      :: renderWith env.editOk (outcomeContent pr.2))

/-- Model of `process_lifecycle_event` (main.py lines 327-442): the if/elif chain
on the incoming text, in source order — the eight quick-reply labels are
rewritten through `description_mapping` and submitted; "📝 Custom
Description" re-prompts and stays in WAITING_FOR_DESCRIPTION; the
send-a-photo label prompts and moves to WAITING_FOR_IMAGE; "📝 Continue with
text only" substitutes the stored text_description (or, absent that, the
raw label) and submits; any other text is submitted as is. -/
def process_lifecycle_event (telegram_id : String) (ud : UserData)
    (msgText : String) (env : Env) : ConvState × UserData × List Effect :=
  if msgText ∈ quickReplyLabels then
    submitFlow telegram_id ud (mapDescription msgText) env
  else if msgText = "📝 Custom Description" then
    (ConvState.waiting_for_description, ud, [Effect.sendMsg customDescPrompt])
  else if msgText = "📸 I\x27ll send a photo" then
    (ConvState.waiting_for_image, ud, [Effect.sendMsg sendPhotoPrompt])
  else if msgText = "📝 Continue with text only" then
    submitFlow telegram_id ud (ud.text_description.getD msgText) env
  else
    submitFlow telegram_id ud msgText env

/-- Model of `handle_photo` (main.py lines 294-312): prompt with the quick-reply
keyboard, store the file id and size of the highest-resolution photo, and
move to WAITING_FOR_DESCRIPTION. -/
def handle_photo (ud : UserData) (fid : String) (sz : Nat) :
    ConvState × UserData × List Effect :=
  (ConvState.waiting_for_description,
   { ud with photo_file_id := some fid, photo_size := some sz },
   [Effect.sendMsg photoReceivedPrompt])

/-- Model of `handle_text_only` (main.py lines 314-325): prompt with the binary
choice, store the text under text_description, and move to
WAITING_FOR_EVENT. -/
def handle_text_only (ud : UserData) (s : String) :
    ConvState × UserData × List Effect :=
  (ConvState.waiting_for_event,
   { ud with text_description := some s },
   [Effect.sendMsg textOnlyPrompt])

/-- Model of `cancel_command` (main.py lines 444-451): clear `user_data`,
acknowledge, end the conversation. -/
def cancel_command (_ud : UserData) : ConvState × UserData × List Effect :=
  (ConvState.idle, UserData.empty, [Effect.sendMsg cancelText])

/-- A Telegram command message starts with a slash. -/
def isCommand (s : String) : Bool :=
  match s.data with
  | [] => false
  | c :: _ => c == '/'

/-- The five CommandHandlers registered before the ConversationHandler
(`/start`, `/help`, `/link`, `/status`, `/products`): they match first,
only reply (never touching dialog state or user_data), so their message
content is out of scope here. -/
def isTopCommand (s : String) : Bool :=
  s == "/start" || s == "/help" || s == "/link" || s == "/status" || s == "/products"

/-- One dispatch step of the handler table built in `setup_handlers`
(main.py lines 57-88), following the dispatch rules of python-telegram-bot:
the five read-only CommandHandlers are registered first and win; with no
active conversation the entry points run (PHOTO → handle_photo,
TEXT & ~COMMAND → handle_text_only); with an active conversation the
handlers of the current state are tried first — WAITING_FOR_EVENT and
WAITING_FOR_DESCRIPTION each register MessageHandler(filters.TEXT, …),
which matches every text message, commands included — and only then the
`/cancel` fallback.  The states dict registers nothing at all for
WAITING_FOR_IMAGE, so in that state only the `/cancel` fallback can
match; every unmatched update leaves the state and scratch untouched. -/
def step (telegram_id : String) (st : ConvState) (ud : UserData)
    (inp : ChatInput) (env : Env) : ConvState × UserData × List Effect :=
  match inp with
  | ChatInput.photo fid sz =>
      match st with
      | ConvState.idle => handle_photo ud fid sz
      | _ => (st, ud, [])
  | ChatInput.text s =>
      if isTopCommand s then (st, ud, [])
      else
        match st with
        | ConvState.idle =>
            if isCommand s then (st, ud, []) else handle_text_only ud s
        | ConvState.waiting_for_event => process_lifecycle_event telegram_id ud s env
        | ConvState.waiting_for_description => process_lifecycle_event telegram_id ud s env
        | ConvState.waiting_for_image =>
            if s = "/cancel" then cancel_command ud else (st, ud, [])

/-- Run a sequence of turns from a starting configuration, concatenating
the effect logs. -/
def runTrace (telegram_id : String) :
    ConvState → UserData → List (ChatInput × Env) → ConvState × UserData × List Effect
  | st, ud, [] => (st, ud, [])
  | st, ud, (inp, env) :: rest =>
      let r := step telegram_id st ud inp env
      let r2 := runTrace telegram_id r.1 r.2.1 rest
      (r2.1, r2.2.1, r.2.2 ++ r2.2.2)

/-- The Event Normalizer of spec §4.2, read off the same if/elif chain
of `process_lifecycle_event` (main.py lines 336-365): the result variant
says what the chain does with the raw input. -/
inductive NormalizedEvent
  | Description (text : String)
  | RequestCustomText
  | RequestPhoto
  | UseStoredText (fallbackKey : String)
deriving DecidableEq

def normalizeEvent (rawInput : String) : NormalizedEvent :=
  if rawInput ∈ quickReplyLabels then
    NormalizedEvent.Description (mapDescription rawInput)
  else if rawInput = "📝 Custom Description" then
    NormalizedEvent.RequestCustomText
  else if rawInput = "📸 I\x27ll send a photo" then
    NormalizedEvent.RequestPhoto
  else if rawInput = "📝 Continue with text only" then
    NormalizedEvent.UseStoredText rawInput
  else
    NormalizedEvent.Description rawInput

/-- Boolean check that `sub` occurs as a prefix of `hay`. -/
def listPrefixed : List Char → List Char → Bool
  | [], _ => true
  | _ :: _, [] => false
  | a :: as, b :: bs => a == b && listPrefixed as bs

/-- Boolean check that `sub` occurs contiguously inside `hay`. -/
def listContains (hay sub : List Char) : Bool :=
  match hay with
  | [] => sub.isEmpty
  | _ :: t => listPrefixed sub hay || listContains t sub

/-- Substring test on strings. -/
def strContains (s sub : String) : Bool :=
  listContains s.data sub.data

/-- The synthetic success response of spec §8. -/
def syntheticResponse : ApiResponse :=
  { success := true
  , matchedProduct := some { name := "Lamp" }
  , lifecycleStep := some { title := "Repaired", description := "Fixed the lamp" }
  , matchInfo := some { confidence := 87, message := "High confidence match" }
  , message := none
  , error := none }

/-- A concrete environment for closed evaluations: a successful fetch, a
successful exchange, editable placeholder. -/
def envA : Env :=
  { fetchResult := Except.ok [1, 2, 3]
  , netResult := Except.ok syntheticResponse
  , editOk := true
  , monotonicNow := 12
  , wallClockNow := 1700000000
  , botSecret := "s3cret" }

/-- A concrete environment whose event loop started 5 seconds ago while
the wall clock reads 1700000000 seconds since the Unix epoch. -/
def envClock : Env :=
  { fetchResult := Except.ok [1, 2, 3]
  , netResult := Except.ok syntheticResponse
  , editOk := true
  , monotonicNow := 5
  , wallClockNow := 1700000000
  , botSecret := "s3cret" }

/-- A concrete environment where the transport exchange raises. -/
def envFail : Env :=
  { fetchResult := Except.ok [1, 2, 3]
  , netResult := Except.error { msg := "timeout" }
  , editOk := true
  , monotonicNow := 12
  , wallClockNow := 1700000000
  , botSecret := "s3cret" }

/-- A concrete environment where the media download raises. -/
def envNoMedia : Env :=
  { fetchResult := Except.error "file reference expired"
  , netResult := Except.ok syntheticResponse
  , editOk := true
  , monotonicNow := 12
  , wallClockNow := 1700000000
  , botSecret := "s3cret" }

/-- The product record of the listing API (name and ecoScore are the
fields `products_command` reads). -/
structure TrackedProduct where
  name : String
  ecoScore : Int
deriving DecidableEq

/-- The decoded body of the API_BASE/telegram/products response with the fields
`get_user_products` reads (`stats.avgEcoScore` flattened). -/
structure ProductsApiData where
  linked : Bool
  products : List TrackedProduct
  avgEcoScore : Int
deriving DecidableEq

/-- The record `get_user_products` returns to `products_command`. -/
structure ProductsInfo where
  linked : Bool
  products : List TrackedProduct
  avg_score : Int
deriving DecidableEq

/-- Model of `get_user_products` (main.py lines 524-553): on a linked response
keep only the first 10 products (`data["products"][:10]`); on a
not-linked response or on any exception return the not-linked default
record. -/
def get_user_products (net : Except String ProductsApiData) : ProductsInfo :=
  match net with
  | Except.ok data =>
      if data.linked then
        { linked := true
        , products := data.products.take 10
        , avg_score := data.avgEcoScore }
      else
        { linked := false, products := [], avg_score := 0 }
  | Except.error _ =>
      { linked := false, products := [], avg_score := 0 }

/-- One entry of the recentActivity list of the status API (keys read with
`.get` and a default, so each is optional). -/
structure ActivityItem where
  stepIcon : Option String
  productName : Option String
  stepLabel : Option String
deriving DecidableEq

/-- The decoded body of the API_BASE/telegram/status response with the fields
`check_user_status` reads (nested keys flattened). -/
structure StatusApiData where
  linked : Bool
  user_name : Option String
  user_linkedAt : String
  stats_trackedProducts : Nat
  recentActivity : List ActivityItem
deriving DecidableEq

/-- The record `check_user_status` returns to `status_command`. -/
structure StatusInfo where
  linked : Bool
  name : String
  tracked_count : Nat
  linked_date : String
  recent_activity : String
deriving DecidableEq

/-- Model of `format_recent_activity` (main.py lines 555-567): show only the
last 3 items, each as "icon label: product" with per-key defaults. -/
def format_recent_activity (activities : List ActivityItem) : String :=
  if activities.isEmpty then "No recent activity"
  else
    String.intercalate "\n" ((activities.take 3).map (fun a =>
      (a.stepIcon.getD "📝") ++ " " ++ (a.stepLabel.getD "Event")
        ++ ": " ++ (a.productName.getD "Product")))

/-- Model of `check_user_status` (main.py lines 488-522): linked branch builds
the info record (`data["user"]["name"] or "Unknown"` is `getD`); the
not-linked branch and the except handler each return their fixed
default records, both with `linked = False`. -/
def check_user_status (net : Except String StatusApiData) : StatusInfo :=
  match net with
  | Except.ok data =>
      if data.linked then
        { linked := true
        , name := data.user_name.getD "Unknown"
        , tracked_count := data.stats_trackedProducts
        , linked_date := data.user_linkedAt
        , recent_activity := format_recent_activity data.recentActivity }
      else
        { linked := false, name := "Unknown", tracked_count := 0
        , linked_date := "Not linked", recent_activity := "No recent activity" }
  | Except.error _ =>
      { linked := false, name := "Unknown", tracked_count := 0
      , linked_date := "Error checking status"
      , recent_activity := "Unable to fetch activity" }

/-! ## Helper lemmas -/

theorem countApiCalls_shape (p : Payload) (c : String) (b : Bool) (s : String) :
    countApiCalls (Effect.sendMsg s :: Effect.apiCall p :: renderWith b c) = 1 := by
  cases b <;> rfl

theorem apiPayloads_shape (p : Payload) (c : String) (b : Bool) (s : String) :
    apiPayloads (Effect.sendMsg s :: Effect.apiCall p :: renderWith b c) = [p] := by
  cases b <;> rfl

theorem msgTexts_shape (p : Payload) (c : String) (b : Bool) (s : String) :
    msgTexts (Effect.sendMsg s :: Effect.apiCall p :: renderWith b c) = [s, c] := by
  cases b <;> rfl

theorem submitFlow_effects (tid : String) (ud : UserData) (d : String) (env : Env) :
    (submitFlow tid ud d env).2.2 =
      Effect.sendMsg processingText
        :: Effect.apiCall
            { telegramId := tid, text := d, botToken := env.botSecret
            , timestamp := env.monotonicNow, imageBase64 := imageFor ud env }
        :: renderWith env.editOk (outcomeContent env.netResult) := rfl

theorem submitFlow_calls (tid : String) (ud : UserData) (d : String) (env : Env) :
    countApiCalls (submitFlow tid ud d env).2.2 = 1 := by
  rw [submitFlow_effects]
  exact countApiCalls_shape _ _ _ _

theorem submitFlow_payload_text (tid : String) (ud : UserData) (d : String) (env : Env) :
    (apiPayloads (submitFlow tid ud d env).2.2).map Payload.text = [d] := by
  rw [submitFlow_effects, apiPayloads_shape]
  rfl

theorem submitFlow_payload_image (tid : String) (ud : UserData) (d : String) (env : Env) :
    (apiPayloads (submitFlow tid ud d env).2.2).map Payload.imageBase64
      = [imageFor ud env] := by
  rw [submitFlow_effects, apiPayloads_shape]
  rfl

theorem submitFlow_msgTexts (tid : String) (ud : UserData) (d : String) (env : Env) :
    msgTexts (submitFlow tid ud d env).2.2
      = [processingText, outcomeContent env.netResult] := by
  rw [submitFlow_effects, msgTexts_shape]

theorem imageFor_eq_none (ud : UserData) (env : Env) (fid err : String)
    (hud : ud.photo_file_id = some fid) (hf : env.fetchResult = Except.error err) :
    imageFor ud env = none := by
  unfold imageFor
  rw [hud, hf]
  rfl

theorem isTopCommand_eq_false (s : String) (hcmd : isCommand s = false) :
    isTopCommand s = false := by
  cases h : isTopCommand s
  · rfl
  · exfalso
    have hs : s = "/start" ∨ s = "/help" ∨ s = "/link" ∨ s = "/status" ∨ s = "/products" := by
      simpa [isTopCommand, or_assoc] using h
    rcases hs with h1 | h1 | h1 | h1 | h1 <;> subst h1 <;> exact absurd hcmd (by decide)

theorem step_idle_text (tid s : String) (hcmd : isCommand s = false)
    (hTop : isTopCommand s = false) (env : Env) (ud : UserData) :
    step tid ConvState.idle ud (ChatInput.text s) env = handle_text_only ud s := by
  show (if isTopCommand s = true then (ConvState.idle, ud, [])
        else if isCommand s = true then (ConvState.idle, ud, [])
        else handle_text_only ud s) = handle_text_only ud s
  rw [hTop, hcmd]
  rfl

theorem step_event_text (tid s : String) (hTop : isTopCommand s = false)
    (env : Env) (ud : UserData) :
    step tid ConvState.waiting_for_event ud (ChatInput.text s) env
      = process_lifecycle_event tid ud s env := by
  show (if isTopCommand s = true then (ConvState.waiting_for_event, ud, [])
        else process_lifecycle_event tid ud s env) = process_lifecycle_event tid ud s env
  rw [hTop]
  rfl

/-! ## Claim theorems -/

/-- Claim C1: after any submission attempt — whether the exchange decodes a
success body, decodes a failure body, or raises — the scratch state is
cleared, the dialog state is Idle (ConversationHandler.END), and exactly one
submission call was made; an explicit /cancel dispatched from any active
state likewise ends with cleared scratch and Idle (and cancel_command itself
makes no submission call); and a photo arriving on the cleared scratch
stores only the new media reference, with no stored free text. -/
theorem C1_cleanup_invariant (tid s : String) (ud : UserData) (env : Env)
    (st : ConvState)
    (h1 : s ≠ "📝 Custom Description") (h2 : s ≠ "📸 I\x27ll send a photo")
    (h3 : st ≠ ConvState.idle) :
    ((process_lifecycle_event tid ud s env).1 = ConvState.idle
      ∧ (process_lifecycle_event tid ud s env).2.1 = UserData.empty
      ∧ countApiCalls (process_lifecycle_event tid ud s env).2.2 = 1)
    ∧ ((step tid st ud (ChatInput.text "/cancel") env).1 = ConvState.idle
      ∧ (step tid st ud (ChatInput.text "/cancel") env).2.1 = UserData.empty
      ∧ countApiCalls (cancel_command ud).2.2 = 0)
    ∧ (∀ fid sz, (handle_photo UserData.empty fid sz).2.1
        = { photo_file_id := some fid, photo_size := some sz, text_description := none }) := by
  refine ⟨?_, ?_, fun fid sz => rfl⟩
  · unfold process_lifecycle_event
    by_cases hq : s ∈ quickReplyLabels
    · rw [if_pos hq]
      exact ⟨rfl, rfl, submitFlow_calls tid ud (mapDescription s) env⟩
    · rw [if_neg hq, if_neg h1, if_neg h2]
      by_cases hcont : s = "📝 Continue with text only"
      · rw [if_pos hcont]
        exact ⟨rfl, rfl, submitFlow_calls tid ud (ud.text_description.getD s) env⟩
      · rw [if_neg hcont]
        exact ⟨rfl, rfl, submitFlow_calls tid ud s env⟩
  · cases st with
    | idle => exact absurd rfl h3
    | waiting_for_event => exact ⟨rfl, rfl, rfl⟩
    | waiting_for_description => exact ⟨rfl, rfl, rfl⟩
    | waiting_for_image => exact ⟨rfl, rfl, rfl⟩

theorem C1_cleanup_invariant_witness :
    ("my lamp broke" ≠ "📝 Custom Description"
      ∧ ConvState.waiting_for_description ≠ ConvState.idle
      ∧ (process_lifecycle_event "42" UserData.empty "my lamp broke" envA).1 = ConvState.idle
      ∧ countApiCalls (process_lifecycle_event "42" UserData.empty "my lamp broke" envA).2.2 = 1) :=
  ⟨by decide, by decide,
    (C1_cleanup_invariant "42" "my lamp broke" UserData.empty envA
      ConvState.waiting_for_description (by decide) (by decide) (by decide)).1.1,
    (C1_cleanup_invariant "42" "my lamp broke" UserData.empty envA
      ConvState.waiting_for_description (by decide) (by decide) (by decide)).1.2.2⟩

/-- Claim C2 counterexample: the label exactly as printed in the
canonical-mapping table of the spec, "Broken/Not Working", is not rewritten — the code
only matches the emoji-prefixed keyboard strings, so this input is passed
through unchanged and submitted verbatim; and the non-empty input
"📝 Custom Description" is not yielded unchanged as a description but
answered with a control action. -/
theorem C2_counterexample :
    normalizeEvent "Broken/Not Working"
        = NormalizedEvent.Description "Broken/Not Working"
    ∧ (apiPayloads (process_lifecycle_event "1" UserData.empty
          "Broken/Not Working" envA).2.2).map Payload.text = ["Broken/Not Working"]
    ∧ normalizeEvent "📝 Custom Description" = NormalizedEvent.RequestCustomText := by
  exact ⟨by decide, by decide, by decide⟩

/-- Claim C2 (amended): for each of the eight emoji-prefixed quick-reply
labels the keyboard actually sends, normalization yields exactly the
canonical sentence from the table; and any other input string that is not
one of the three control labels (custom description, send a photo,
continue with text only) is yielded unchanged
as the description — no fuzzy matching, no invalid-input case. -/
theorem C2_amended_normalization :
    (normalizeEvent "🔴 Broken/Not Working"
        = NormalizedEvent.Description "This product is broken and not working properly"
    ∧ normalizeEvent "🔧 Fixed/Repaired"
        = NormalizedEvent.Description "I fixed and repaired this product, it\x27s working now"
    ∧ normalizeEvent "🛒 Just Bought"
        = NormalizedEvent.Description "I just purchased this product"
    ∧ normalizeEvent "♻️ Recycled/Disposed"
        = NormalizedEvent.Description "I recycled or disposed of this product"
    ∧ normalizeEvent "🎁 Sold/Gifted"
        = NormalizedEvent.Description "I sold or gave away this product"
    ∧ normalizeEvent "⬆️ Upgraded/Modified"
        = NormalizedEvent.Description "I upgraded or modified this product"
    ∧ normalizeEvent "🧽 Cleaned/Maintained"
        = NormalizedEvent.Description "I cleaned and maintained this product"
    ∧ normalizeEvent "✅ Working Great"
        = NormalizedEvent.Description "This product is working great with no issues")
    ∧ ∀ s : String, s ∉ quickReplyLabels →
        s ≠ "📝 Custom Description" → s ≠ "📸 I\x27ll send a photo" →
        s ≠ "📝 Continue with text only" →
        normalizeEvent s = NormalizedEvent.Description s := by
  refine ⟨by decide, ?_⟩
  intro s hq h1 h2 h3
  unfold normalizeEvent
  rw [if_neg hq, if_neg h1, if_neg h2, if_neg h3]

theorem C2_amended_normalization_witness :
    normalizeEvent "my kettle exploded" = NormalizedEvent.Description "my kettle exploded" :=
  C2_amended_normalization.2 "my kettle exploded" (by decide) (by decide) (by decide) (by decide)

/-- Claim C3 (the code evaluated at the failing input): starting from Idle,
the turns free text "my lamp broke", the send-a-photo quick reply, an
actual photo, and the description "I fixed it" leave the conversation stuck
in the photo-collecting state WAITING_FOR_IMAGE with no submission call at
all: the states dict of the ConversationHandler registers no handler for
WAITING_FOR_IMAGE, so both the photo and the subsequent description are
dropped. -/
theorem C3_photo_state_dead_end :
    (runTrace "42" ConvState.idle UserData.empty
      [ (ChatInput.text "my lamp broke", envA)
      , (ChatInput.text "📸 I\x27ll send a photo", envA)
      , (ChatInput.photo "file1" 100, envA)
      , (ChatInput.text "I fixed it", envA) ]).1 = ConvState.waiting_for_image
    ∧ countApiCalls (runTrace "42" ConvState.idle UserData.empty
      [ (ChatInput.text "my lamp broke", envA)
      , (ChatInput.text "📸 I\x27ll send a photo", envA)
      , (ChatInput.photo "file1" 100, envA)
      , (ChatInput.text "I fixed it", envA) ]).2.2 = 0 := by
  exact ⟨by decide, by decide⟩

/-- Claim C4 counterexample: at a concrete transport timeout, the value
send_to_api hands back is the raised fault itself, not a decoded
success-or-failure outcome: the function body has no try/except, so the
fault propagates out of the submission layer instead of being converted
into a synthetic failure outcome there. -/
theorem C4_counterexample :
    (send_to_api "1" "desc" none envFail).2 = Except.error { msg := "timeout" }
    ∧ ∀ r : ApiResponse, (send_to_api "1" "desc" none envFail).2 ≠ Except.ok r := by
  refine ⟨rfl, ?_⟩
  intro r h
  exact Except.noConfusion h

/-- Claim C4 (amended): transport-level failures are not caught inside
send_to_api — the fault propagates to process_lifecycle_event, whose outer
except handler renders the generic apology (with edit fallback) and still
clears the scratch state and returns the dialog to Idle, with exactly one
submission attempt having been made. -/
theorem C4_amended_fault_handling (tid : String) (ud : UserData) (d : String)
    (env : Env) (e : TransportFault) (hnet : env.netResult = Except.error e) :
    (send_to_api tid d none env).2 = Except.error e
    ∧ msgTexts (submitFlow tid ud d env).2.2 = [processingText, apologyText]
    ∧ (submitFlow tid ud d env).1 = ConvState.idle
    ∧ (submitFlow tid ud d env).2.1 = UserData.empty
    ∧ countApiCalls (submitFlow tid ud d env).2.2 = 1 := by
  refine ⟨hnet, ?_, rfl, rfl, submitFlow_calls tid ud d env⟩
  rw [submitFlow_msgTexts, hnet]
  rfl

theorem C4_amended_fault_handling_witness :
    (envFail.netResult = Except.error { msg := "timeout" }
    ∧ msgTexts (submitFlow "1" UserData.empty "desc" envFail).2.2
        = [processingText, apologyText]) :=
  ⟨rfl, (C4_amended_fault_handling "1" UserData.empty "desc" envFail
      { msg := "timeout" } rfl).2.1⟩

/-- Claim C5 (the code evaluated at the failing input): in an environment
whose event loop has been running for 5 seconds while the wall clock reads
1700000000 seconds since the Unix epoch, the submitted payload carries
timestamp 5 — the integer part of asyncio.get_event_loop().time(), a
monotonic clock with an arbitrary epoch — not the wall-clock epoch seconds
the report is specified to carry. -/
theorem C5_monotonic_timestamp :
    (apiPayloads (submitFlow "1" UserData.empty "desc" envClock).2.2).map
        Payload.timestamp = [5]
    ∧ envClock.wallClockNow = 1700000000
    ∧ (5 : Int) ≠ 1700000000 := by
  exact ⟨by decide, rfl, by decide⟩

/-- Claim C6: a conversation that receives free text t (stored by
handle_text_only) and then the "📝 Continue with text only" quick reply
makes exactly one submission call, whose description is the originally
stored free text t, and ends back at Idle with cleared scratch; and when
no stored free text exists in the scratch state, the raw label string
itself is submitted as the description — a fallback, not an error. -/
theorem C6_stored_text_submission (tid t : String) (env1 env2 env3 : Env)
    (ud2 : UserData) (hcmd : isCommand t = false)
    (hud : ud2.text_description = none) :
    (let r1 := step tid ConvState.idle UserData.empty (ChatInput.text t) env1
     let r2 := step tid r1.1 r1.2.1 (ChatInput.text "📝 Continue with text only") env2
     (apiPayloads r2.2.2).map Payload.text = [t]
       ∧ countApiCalls r2.2.2 = 1
       ∧ r2.1 = ConvState.idle ∧ r2.2.1 = UserData.empty)
    ∧ (apiPayloads (process_lifecycle_event tid ud2
          "📝 Continue with text only" env3).2.2).map Payload.text
        = ["📝 Continue with text only"] := by
  have hTop := isTopCommand_eq_false t hcmd
  have h1 := step_idle_text tid t hcmd hTop env1 UserData.empty
  constructor
  · dsimp only
    rw [h1]
    show (apiPayloads (submitFlow tid
          { photo_file_id := none, photo_size := none, text_description := some t }
          t env2).2.2).map Payload.text = [t]
      ∧ countApiCalls (submitFlow tid
          { photo_file_id := none, photo_size := none, text_description := some t }
          t env2).2.2 = 1
      ∧ (submitFlow tid
          { photo_file_id := none, photo_size := none, text_description := some t }
          t env2).1 = ConvState.idle
      ∧ (submitFlow tid
          { photo_file_id := none, photo_size := none, text_description := some t }
          t env2).2.1 = UserData.empty
    exact ⟨submitFlow_payload_text tid _ t env2, submitFlow_calls tid _ t env2, rfl, rfl⟩
  · show (apiPayloads (submitFlow tid ud2
        (ud2.text_description.getD "📝 Continue with text only") env3).2.2).map
          Payload.text = ["📝 Continue with text only"]
    rw [hud]
    exact submitFlow_payload_text tid ud2 "📝 Continue with text only" env3

theorem C6_stored_text_submission_witness :
    (isCommand "my lamp broke" = false
    ∧ (let r1 := step "42" ConvState.idle UserData.empty
          (ChatInput.text "my lamp broke") envA
       let r2 := step "42" r1.1 r1.2.1
          (ChatInput.text "📝 Continue with text only") envA
       (apiPayloads r2.2.2).map Payload.text = ["my lamp broke"])) :=
  ⟨by decide,
    (C6_stored_text_submission "42" "my lamp broke" envA envA envA UserData.empty
      (by decide) rfl).1.1⟩

/-- Claim C7: when the media fetch fails, get_photo_data returns the typed
absence None instead of raising, and the submission still proceeds — the
single submitted payload simply omits the image (imageBase64 is None) and
the conversation completes back to Idle with cleared scratch. -/
theorem C7_media_failure_degrades (tid d fid err : String) (ud : UserData)
    (env : Env) (hud : ud.photo_file_id = some fid)
    (hf : env.fetchResult = Except.error err) :
    get_photo_data env.fetchResult = none
    ∧ (apiPayloads (submitFlow tid ud d env).2.2).map Payload.imageBase64 = [none]
    ∧ countApiCalls (submitFlow tid ud d env).2.2 = 1
    ∧ (submitFlow tid ud d env).1 = ConvState.idle
    ∧ (submitFlow tid ud d env).2.1 = UserData.empty := by
  have hg : get_photo_data env.fetchResult = none := by rw [hf]; rfl
  refine ⟨hg, ?_, submitFlow_calls tid ud d env, rfl, rfl⟩
  rw [submitFlow_payload_image, imageFor_eq_none ud env fid err hud hf]

theorem C7_media_failure_degrades_witness :
    (envNoMedia.fetchResult = Except.error "file reference expired"
    ∧ (apiPayloads (submitFlow "1"
        { photo_file_id := some "f1", photo_size := some 9, text_description := none }
        "desc" envNoMedia).2.2).map Payload.imageBase64 = [none]) :=
  ⟨rfl, (C7_media_failure_degrades "1" "desc" "f1" "file reference expired"
      { photo_file_id := some "f1", photo_size := some 9, text_description := none }
      envNoMedia rfl rfl).2.1⟩

/-- Claim C8: the outcome content is delivered whether or not the edit of
the processing placeholder succeeds — when editing fails the fallback is a
fresh message with the same content — and for every environment, editable
placeholder or not, the submission path still ends at Idle with cleared
scratch: a rendering failure never aborts the conversation or prevents the
reset. -/
theorem C8_render_fallback (tid d c : String) (ud : UserData) (env : Env) :
    renderWith false c = [Effect.sendMsg c]
    ∧ renderWith true c = [Effect.editMsg c]
    ∧ msgTexts (submitFlow tid ud d env).2.2
        = [processingText, outcomeContent env.netResult]
    ∧ (submitFlow tid ud d env).1 = ConvState.idle
    ∧ (submitFlow tid ud d env).2.1 = UserData.empty :=
  ⟨rfl, rfl, submitFlow_msgTexts tid ud d env, rfl, rfl⟩

/-- Claim C9: for the synthetic success response with product "Lamp", step
"Repaired"/"Fixed the lamp" and match info 87/"High confidence match", the
rendered success output contains the substrings "Lamp", "Repaired", "87"
and "High confidence match". -/
theorem C9_success_render :
    strContains (outcomeContent (Except.ok syntheticResponse)) "Lamp" = true
    ∧ strContains (outcomeContent (Except.ok syntheticResponse)) "Repaired" = true
    ∧ strContains (outcomeContent (Except.ok syntheticResponse)) "87" = true
    ∧ strContains (outcomeContent (Except.ok syntheticResponse))
        "High confidence match" = true := by
  exact ⟨by decide, by decide, by decide, by decide⟩

/-- Claim C10: the products handed to the user view are always at most the
first 10 entries of the list returned by the listing API (an exact take-10
truncation on a linked response), and any exception while querying either
the listing or the status API yields the corresponding not-linked default
record rather than raising to the caller. -/
theorem C10_truncation_and_defaults (net : Except String ProductsApiData)
    (net2 : Except String StatusApiData) (e1 e2 : String)
    (h1 : net = Except.error e1) (h2 : net2 = Except.error e2) :
    (∀ m : Except String ProductsApiData, (get_user_products m).products.length ≤ 10)
    ∧ (∀ data : ProductsApiData, data.linked = true →
        get_user_products (Except.ok data)
          = { linked := true, products := data.products.take 10
            , avg_score := data.avgEcoScore })
    ∧ get_user_products net = { linked := false, products := [], avg_score := 0 }
    ∧ check_user_status net2
        = { linked := false, name := "Unknown", tracked_count := 0
          , linked_date := "Error checking status"
          , recent_activity := "Unable to fetch activity" } := by
  refine ⟨?_, ?_, by rw [h1]; rfl, by rw [h2]; rfl⟩
  · intro m
    cases m with
    | error e => simp [get_user_products]
    | ok data =>
        by_cases hl : data.linked
        · simp only [get_user_products, hl, if_true]
          rw [List.length_take]
          exact min_le_left _ _
        · simp [get_user_products, hl]
  · intro data hl
    simp [get_user_products, hl]

theorem C10_truncation_and_defaults_witness :
    get_user_products (Except.error "connection refused")
      = { linked := false, products := [], avg_score := 0 } :=
  (C10_truncation_and_defaults (Except.error "connection refused")
    (Except.error "boom") "connection refused" "boom" rfl rfl).2.2.1
